import Mathlib

/-!
Shallow embedding of the LowVoiceBot whisper bot (src/lowvoicebot.py).

The program keeps two global dictionaries:
  `whispers        : dict[str, WhisperEntry]` (line 64)
  `expiring_tasks  : dict[str, Task]`         (line 66)
and manipulates them through
  `expire_whisper` (lines 68-76), the inline creation handler
  `whisper_inline_handler` (lines 140-229), the callback handler
  `whisper_callback_handler` (lines 232-264) and the deep-link save
  handler `start_save_handler` (lines 110-132).  The display-name
  resolver `resolve_user` (lines 48-59) is wrapped in an
  `alru_cache(maxsize=1024)` decorator.

Dictionaries are embedded as association lists with dict semantics
(lookup finds the unique binding, assignment overwrites, `pop` without a
default raises `KeyError` when the key is absent — modelled as a `false`
success flag).  Telegram users are embedded as a structure with the
stable numeric id, the optional username handle and a first name;
Python object equality on `aiogram` users is modelled as structural
equality, and `user.username` is `Option String` exactly as in Python
where `from_user.username` may be `None`.
-/

namespace LowVoiceBot

/-- A Telegram user as the handlers see it: stable numeric account id,
optional public handle (`username`, may be absent) and a first name. -/
structure User where
  userId : Nat
  username : Option String
  firstName : String
deriving DecidableEq

/-- `WhisperEntry = namedtuple("WhisperEntry", ("sender", "recipient", "content"))`
(line 62).  `sender` is the full user object, `recipient` the handle
string with any leading marker already stripped, `content` the text. -/
structure WhisperEntry where
  sender : User
  recipient : String
  content : String
deriving DecidableEq

/-- The state of one entry of `expiring_tasks`: an armed (pending)
sleep-then-pop task with its delay in seconds, or one that has already
fired (the code never removes a fired task from the dictionary). -/
inductive TaskState
  | pending (delaySeconds : Nat)
  | fired
deriving DecidableEq

/-- `d.get(key)` on a Python dict embedded as an association list. -/
def dlookup {α : Type} : List (String × α) → String → Option α
  | [], _ => none
  | (k, v) :: rest, key => if k = key then some v else dlookup rest key

/-- `del d[key]` / the removal part of `d.pop(key)`: drop every binding
of `key` (a well-formed dict has at most one). -/
def dremove {α : Type} : List (String × α) → String → List (String × α)
  | [], _ => []
  | (k, v) :: rest, key =>
      if k = key then dremove rest key else (k, v) :: dremove rest key

/-- `d[key] = v`: overwrite any existing binding of `key`. -/
def dinsert {α : Type} (m : List (String × α)) (key : String) (v : α) :
    List (String × α) :=
  (key, v) :: dremove m key

/-- `d.pop(key)` without a default: `none` models the `KeyError` raised
when the key is absent. -/
def dpopStrict {α : Type} (m : List (String × α)) (key : String) :
    Option (α × List (String × α)) :=
  match dlookup m key with
  | none => none
  | some v => some (v, dremove m key)

/-- Mark the task bound to `key` as having fired; the binding itself is
kept, exactly as the code keeps the finished task in `expiring_tasks`. -/
def markFired : List (String × TaskState) → String → List (String × TaskState)
  | [], _ => []
  | (k, v) :: rest, key =>
      if k = key then (k, TaskState.fired) :: markFired rest key
      else (k, v) :: markFired rest key

/-- The two global dictionaries (lines 64 and 66). -/
structure VaultState where
  whispers : List (String × WhisperEntry)
  expiringTasks : List (String × TaskState)
deriving DecidableEq

/-- Line 121 and line 246: the one text used both when the id never
existed and when it has expired. -/
def notFoundText : String := "⏲️🔔/❌ The message is expired or non-existent."

/-- Line 126 and line 251: the text used when the record exists but the
requester is neither the sender nor the recipient. -/
def notAuthorizedText : String := "🚫 You are neither the sender nor recipient."

/-- Line 260. -/
def expireSuccessText : String := "✅ Successfully expired."

/-- Line 262. -/
def unsupportedActionText : String := "❌ Unsupported Action ❌"

/-- `aiogram` `User.mention`: `@username` when the handle exists,
otherwise the visible name. -/
def mention (u : User) : String :=
  match u.username with
  | some name => "@" ++ name
  | none => u.firstName

/-- Line 254: the alert text shown on a successful REVEAL. -/
def revealText (w : WhisperEntry) : String :=
  "From " ++ mention w.sender ++ " to @" ++ w.recipient ++ ":\n\n" ++ w.content

/-- Line 128: the message sent on a successful deep-link save. -/
def saveMessageText (w : WhisperEntry) : String :=
  "_Message from_ " ++ mention w.sender ++ " _to_ @" ++ w.recipient
    ++ ":\n\n" ++ w.content

/-- `await expire_whisper(id)` as run by the EXPIRE branch (line 259):
the synchronous head of `expire_whisper` cancels and deletes any task
registered for `id` (lines 69-71); the awaited body then executes
`whispers.pop(id)` (line 74), which raises `KeyError` when the id is
absent.  The `Bool` is the success flag: `false` means the pop raised.
On `false` the task dictionary has already been mutated (the cancel
happens before the pop). -/
def expireWhisperRun (s : VaultState) (whisperId : String) :
    Bool × VaultState :=
  let tasks := dremove s.expiringTasks whisperId
  match dpopStrict s.whispers whisperId with
  | none => (false, { s with expiringTasks := tasks })
  | some (_, rest) => (true, { whispers := rest, expiringTasks := tasks })

/-- The timer task armed at creation resuming after its sleep (lines
72-75): it executes `whispers.pop(id)` — raising `KeyError` (`false`)
when the id is absent — and leaves its own, now finished, entry in
`expiring_tasks` (the code never deregisters a fired task). -/
def timerFireRun (s : VaultState) (whisperId : String) :
    Bool × VaultState :=
  match dpopStrict s.whispers whisperId with
  | none => (false, s)
  | some (_, rest) =>
      (true, { whispers := rest,
               expiringTasks := markFired s.expiringTasks whisperId })

/-- Possible user-visible outcomes of `whisper_callback_handler`:
an alert answer (successful REVEAL, line 253), a plain answer
(successful EXPIRE, line 260), an error answer through `answer_error`
(every `ReadableException`, line 264), or an unhandled exception
escaping the handler (the `KeyError` of a failed pop). -/
inductive CbOutcome
  | alertAnswer (text : String)
  | answer (text : String)
  | errorAnswer (text : String)
  | keyErrorCrash
deriving DecidableEq

/-- `whisper_callback_handler` (lines 232-264) on `query.data =
action ++ "|" ++ whisperId` (the split with `maxsplit=1` at line 240
is inverted here by passing the two parts separately).  Lookup first
(line 241), then the authorization check of lines 247-251 — denial iff
`username != recipient and user != sender` — then the action branches. -/
def whisperCallbackHandler (s : VaultState) (u : User)
    (action whisperId : String) : CbOutcome × VaultState :=
  match dlookup s.whispers whisperId with
  | none => (CbOutcome.errorAnswer notFoundText, s)
  | some w =>
    if u.username ≠ some w.recipient ∧ u ≠ w.sender then
      (CbOutcome.errorAnswer notAuthorizedText, s)
    else if action = "REVEAL" then
      (CbOutcome.alertAnswer (revealText w), s)
    else if action = "EXPIRE" then
      match expireWhisperRun s whisperId with
      | (true, s2) => (CbOutcome.answer expireSuccessText, s2)
      | (false, s2) => (CbOutcome.keyErrorCrash, s2)
    else
      (CbOutcome.errorAnswer unsupportedActionText, s)

/-- `start_save_handler` (lines 110-132): the deep-link save path.  It
only reads; the returned string is the text of the reply or answer. -/
def startSaveHandler (s : VaultState) (u : User) (whisperId : String) :
    String :=
  match dlookup s.whispers whisperId with
  | none => notFoundText
  | some w =>
    if u.username ≠ some w.recipient ∧ u ≠ w.sender then notAuthorizedText
    else saveMessageText w

/-- `whispers.get(id)` without any authorization check. -/
def peek (s : VaultState) (whisperId : String) : Option WhisperEntry :=
  dlookup s.whispers whisperId

/-- The literal delay passed to `expire_whisper` at the creation site,
line 216: `expire_whisper(whisper_id, 15)`. -/
def WHISPER_TTL_SECONDS : Nat := 15

/-- Python `f"{n:x}"` for a non-negative integer: lowercase hex. -/
def hexDigits (n : Nat) : String := (Nat.toDigits 16 n).asString

/-- Line 172: `whisper_id = f"WHISPER-{int(now()):x}-{id(whisper):x}"`.
The id depends only on the wall-clock second `tSec` and the CPython
object address `addr` of the content string. -/
def makeWhisperId (tSec addr : Nat) : String :=
  "WHISPER-" ++ hexDigits tSec ++ "-" ++ hexDigits addr

/-- Lines 165-166: strip one leading marker character from the
recipient handle. -/
def stripAtSign (r : String) : String :=
  if r.startsWith "@" then r.drop 1 else r

/-- Lines 173-176: the confirmation message placed into the chat for a
new whisper; its final clause announces a 30-minute expiry. -/
def confirmationText (recipientName recipient : String) : String :=
  ("*Private Message*\n_To_ " ++ recipientName ++ "(@" ++ recipient
    ++ "),\n") ++ "expiring in 30 minutes."

/-- Lines 215-217: `expiring_tasks[whisper_id] =
asyncio.create_task(expire_whisper(whisper_id, 15))`.  The synchronous
head of `expire_whisper` first cancels and deletes any task already
registered for this id (lines 69-71); the fresh pending task is then
registered. -/
def armExpireTask (tasks : List (String × TaskState)) (whisperId : String)
    (delay : Nat) : List (String × TaskState) :=
  dinsert tasks whisperId (TaskState.pending delay)

/-- The state mutation of a successful creation (lines 172, 213-217):
derive the id from `(tSec, addr)`, store the record, arm the timer. -/
def createWhisper (s : VaultState) (tSec addr : Nat) (sender : User)
    (recipient content : String) : String × VaultState :=
  let wid := makeWhisperId tSec addr
  (wid,
   { whispers := dinsert s.whispers wid ⟨sender, recipient, content⟩,
     expiringTasks := armExpireTask s.expiringTasks wid WHISPER_TTL_SECONDS })

/-- One event of the system, for trace reasoning: a successful creation,
a button callback, a deep-link save (read-only), or a timer firing. -/
inductive VaultOp
  | create (tSec addr : Nat) (sender : User) (recipient content : String)
  | callback (u : User) (action whisperId : String)
  | deepLinkSave (u : User) (whisperId : String)
  | fire (whisperId : String)
deriving DecidableEq

/-- The state after one event. -/
def stepState (s : VaultState) : VaultOp → VaultState
  | VaultOp.create t a u r c => (createWhisper s t a u r c).2
  | VaultOp.callback u action wid => (whisperCallbackHandler s u action wid).2
  | VaultOp.deepLinkSave _ _ => s
  | VaultOp.fire wid => (timerFireRun s wid).2

/-- The state after a sequence of events. -/
def runOps (s : VaultState) : List VaultOp → VaultState
  | [] => s
  | op :: rest => runOps (stepState s op) rest

/-! ## Identity resolver (lines 44-59) -/

/-- The outcome of the HTTP GET on `https://t.me/{username}`: either the
request itself errored, or a response with a status and a body came
back. -/
inductive NetResult
  | netError
  | response (status : Nat) (body : String)
deriving DecidableEq

/-- The literal part of `REGEX_RESOLVE_USER` before the capture group
(line 44; the escaped space is a plain space). -/
def openTagChars : List Char := ("<div class=\"tgme_page_title\">").data

/-- The literal part of the pattern after the capture group. -/
def closeTagChars : List Char := ("</div>").data

/-- Character-list version of `startsWith`. -/
def isPrefixOfC : List Char → List Char → Bool
  | [], _ => true
  | _ :: _, [] => false
  | a :: as, b :: bs => (a == b) && isPrefixOfC as bs

/-- The lazy capture group `(.+?)` followed by `</div>`: consume
non-newline characters one at a time, succeeding as soon as the close
tag follows a non-empty capture (lazy semantics: shortest capture
first), failing at a newline or at the end of input. -/
def captureLazy : List Char → List Char → Option (List Char)
  | acc, rest =>
    if !acc.isEmpty && isPrefixOfC closeTagChars rest then
      some acc.reverse
    else
      match rest with
      | [] => none
      | c :: cs => if c = '\n' then none else captureLazy (c :: acc) cs

/-- `re.search` for the fixed pattern: try each start position from the
left; at a position where the open tag matches, attempt the lazy
capture; otherwise (or on capture failure) resume one character later. -/
def searchTitle : List Char → Option (List Char)
  | [] => none
  | c :: cs =>
    if isPrefixOfC openTagChars (c :: cs) then
      match captureLazy [] (List.drop openTagChars.length (c :: cs)) with
      | some cap => some cap
      | none => searchTitle cs
    else searchTitle cs

/-- `REGEX_RESOLVE_USER.search(body).group(1)` as an `Option`: `none`
models the `AttributeError` (caught at line 57) when `search` found
nothing. -/
def extractTitle (body : String) : Option String :=
  (searchTitle body.data).map List.asString

/-- The body of `resolve_user` (lines 49-59) for one network outcome:
every failure — transport error, non-200 status (the `assert` at line
55), pattern not found — is swallowed by the `except Exception` clause
and becomes `None`; a match returns the captured group. -/
def resolveUserRaw : NetResult → Option String
  | NetResult.netError => none
  | NetResult.response status body =>
      if status = 200 then extractTitle body else none

/-- `alru_cache(maxsize=1024)` at line 48. -/
def RESOLVE_CACHE_MAXSIZE : Nat := 1024

/-- An LRU hit moves the entry to most-recently-used position. -/
def lruTouch (c : List (String × Option String)) (key : String) :
    List (String × Option String) :=
  match dlookup c key with
  | none => c
  | some v => (key, v) :: dremove c key

/-- An LRU miss stores the fresh result at most-recently-used position
and evicts beyond the fixed capacity. -/
def lruPut (c : List (String × Option String)) (key : String)
    (v : Option String) : List (String × Option String) :=
  ((key, v) :: dremove c key).take RESOLVE_CACHE_MAXSIZE

/-- `resolve_user` as wrapped by the cache decorator: a hit returns the
memoized value (success or `None` alike) and issues no network request;
a miss runs the body once on the ambient network `net` and memoizes the
result.  The third component counts network requests issued by the
call. -/
def resolveUserCached (net : String → NetResult)
    (c : List (String × Option String)) (username : String) :
    Option String × List (String × Option String) × Nat :=
  match dlookup c username with
  | some v => (v, lruTouch c username, 0)
  | none =>
      let r := resolveUserRaw (net username)
      (r, lruPut c username r, 1)

/-! ## Sample data for concrete evaluations -/

/-- A concrete sender. -/
def aliceUser : User := ⟨1, some "alice", "Alice"⟩

/-- A concrete recipient with handle `bob`. -/
def bobUser : User := ⟨2, some "bob", "Bob"⟩

/-- A concrete third party. -/
def eveUser : User := ⟨3, some "eve", "Eve"⟩

/-- A concrete whisper from Alice to handle `bob`. -/
def sampleEntry : WhisperEntry := ⟨aliceUser, "bob", "hi"⟩

/-! ## Dictionary lemmas -/

theorem dlookup_dremove_self {α : Type} (m : List (String × α)) (k : String) :
    dlookup (dremove m k) k = none := by
  induction m with
  | nil => rfl
  | cons p rest ih =>
    obtain ⟨k1, v1⟩ := p
    by_cases h1 : k1 = k <;> simp [dremove, dlookup, h1, ih]

theorem dlookup_dremove_ne {α : Type} (m : List (String × α)) (k key : String)
    (h : key ≠ k) : dlookup (dremove m k) key = dlookup m key := by
  induction m with
  | nil => rfl
  | cons p rest ih =>
    obtain ⟨k1, v1⟩ := p
    by_cases h1 : k1 = k
    · have h2 : ¬ k1 = key := by
        rw [h1]; exact fun hh => h hh.symm
      rw [show dremove ((k1, v1) :: rest) k = dremove rest k by
            simp [dremove, h1],
          ih,
          show dlookup ((k1, v1) :: rest) key = dlookup rest key by
            simp [dlookup, h2]]
    · rw [show dremove ((k1, v1) :: rest) k = (k1, v1) :: dremove rest k by
            simp [dremove, h1]]
      by_cases h2 : k1 = key <;> simp [dlookup, h2, ih]

theorem dlookup_dinsert {α : Type} (m : List (String × α)) (k key : String)
    (v : α) :
    dlookup (dinsert m k v) key = if k = key then some v else dlookup m key := by
  by_cases h : k = key
  · simp [dinsert, dlookup, h]
  · simp [dinsert, dlookup, h, dlookup_dremove_ne m k key (fun hh => h hh.symm)]

/-- An absent whisper id makes the callback handler answer the
expired-or-non-existent error and leave the state alone, whatever the
action and whoever asks. -/
theorem whisperCallbackHandler_absent (s : VaultState) (u : User)
    (action whisperId : String) (h : dlookup s.whispers whisperId = none) :
    whisperCallbackHandler s u action whisperId
      = (CbOutcome.errorAnswer notFoundText, s) := by
  simp [whisperCallbackHandler, h]

/-- A REVEAL callback never mutates the vault state. -/
theorem callback_reveal_state_eq (s : VaultState) (u : User) (wid : String) :
    (whisperCallbackHandler s u "REVEAL" wid).2 = s := by
  cases hl : dlookup s.whispers wid with
  | none => simp [whisperCallbackHandler, hl]
  | some w =>
    by_cases hd : u.username ≠ some w.recipient ∧ u ≠ w.sender <;>
      simp [whisperCallbackHandler, hl, hd]

/-! ## Claim theorems -/

/-- Claim C1: for a live record `w` under id `wid`, a reveal or expire
request by `u` succeeds exactly when `u`'s identity equals the stored
sender or `u`'s own handle equals the stored recipient handle
(case-sensitive string equality); every other requester gets the denial
outcome.  Holds for the button callbacks and the deep-link save path. -/
theorem authorization_rule (s : VaultState) (u : User) (wid : String)
    (w : WhisperEntry) (h : dlookup s.whispers wid = some w) :
    whisperCallbackHandler s u "REVEAL" wid
      = ((if u.username = some w.recipient ∨ u = w.sender
          then CbOutcome.alertAnswer (revealText w)
          else CbOutcome.errorAnswer notAuthorizedText), s)
    ∧ (whisperCallbackHandler s u "EXPIRE" wid).1
      = (if u.username = some w.recipient ∨ u = w.sender
         then CbOutcome.answer expireSuccessText
         else CbOutcome.errorAnswer notAuthorizedText)
    ∧ startSaveHandler s u wid
      = (if u.username = some w.recipient ∨ u = w.sender
         then saveMessageText w else notAuthorizedText) := by
  by_cases hc : u.username = some w.recipient ∨ u = w.sender
  · have hd : ¬ (u.username ≠ some w.recipient ∧ u ≠ w.sender) := by
      rcases hc with h1 | h1
      · exact fun hh => hh.1 h1
      · exact fun hh => hh.2 h1
    refine ⟨?_, ?_, ?_⟩
    · simp [whisperCallbackHandler, h, hd, hc]
    · simp [whisperCallbackHandler, h, hd, hc, expireWhisperRun, dpopStrict]
    · simp [startSaveHandler, h, hd, hc]
  · have hd : u.username ≠ some w.recipient ∧ u ≠ w.sender :=
      ⟨fun h1 => hc (Or.inl h1), fun h1 => hc (Or.inr h1)⟩
    refine ⟨?_, ?_, ?_⟩ <;>
      simp [whisperCallbackHandler, startSaveHandler, h, hd, hc]

/-- Witness for C1: Bob, the stored recipient, reveals successfully. -/
theorem authorization_rule_witness :
    (whisperCallbackHandler ⟨[("W", sampleEntry)], []⟩ bobUser "REVEAL" "W").1
      = CbOutcome.alertAnswer (revealText sampleEntry) := by
  have h := (authorization_rule ⟨[("W", sampleEntry)], []⟩ bobUser "W"
    sampleEntry (by decide)).1
  have hp : bobUser.username = some sampleEntry.recipient
      ∨ bobUser = sampleEntry.sender := Or.inl (by decide)
  rw [h, if_pos hp]

/-- Claim C6: reveal is non-destructive — a REVEAL callback leaves the
vault state unchanged, so the outcome of any later reveal of the same
id is unaffected by it. -/
theorem reveal_nondestructive (s : VaultState) (u u2 : User) (wid : String) :
    (whisperCallbackHandler s u "REVEAL" wid).2 = s
    ∧ (whisperCallbackHandler (whisperCallbackHandler s u "REVEAL" wid).2
         u2 "REVEAL" wid).1
      = (whisperCallbackHandler s u2 "REVEAL" wid).1 := by
  refine ⟨callback_reveal_state_eq s u wid, ?_⟩
  rw [callback_reveal_state_eq s u wid]

/-- Claim C9: the resolver body maps every failure — transport error,
non-200 status, pattern not found — to `None` (the `except` clause
swallows the exception), and a successful lookup to the display name
captured by the fixed pattern. -/
theorem resolve_failure_yields_none (net : NetResult) :
    (net = NetResult.netError → resolveUserRaw net = none)
    ∧ (∀ st b, net = NetResult.response st b → st ≠ 200 →
        resolveUserRaw net = none)
    ∧ (∀ b, net = NetResult.response 200 b → extractTitle b = none →
        resolveUserRaw net = none)
    ∧ (∀ b nm, net = NetResult.response 200 b → extractTitle b = some nm →
        resolveUserRaw net = some nm) := by
  refine ⟨?_, ?_, ?_, ?_⟩
  · rintro rfl; rfl
  · rintro st b rfl hst; simp [resolveUserRaw, hst]
  · rintro b rfl hx; simp [resolveUserRaw, hx]
  · rintro b nm rfl hx; simp [resolveUserRaw, hx]

/-- Witness for C9: a 404 yields `none`; a 200 page with the title div
yields the captured display name. -/
theorem resolve_failure_yields_none_witness :
    resolveUserRaw (NetResult.response 404 "x") = none
    ∧ resolveUserRaw
        (NetResult.response 200 "<div class=\"tgme_page_title\">Alice</div>")
      = some "Alice" := by
  constructor
  · exact (resolve_failure_yields_none _).2.1 404 "x" rfl (by decide)
  · exact (resolve_failure_yields_none _).2.2.2 _ "Alice" rfl (by decide)

/-- Claim C8: a handle present in the resolver cache — with a success
or a failure memoized — is answered with the identical stored result,
with zero network requests, and stays cached afterwards. -/
theorem resolver_memoization (net : String → NetResult)
    (c : List (String × Option String)) (u : String) (v : Option String)
    (h : dlookup c u = some v) :
    (resolveUserCached net c u).1 = v
    ∧ (resolveUserCached net c u).2.2 = 0
    ∧ dlookup (resolveUserCached net c u).2.1 u = some v := by
  simp [resolveUserCached, h, lruTouch, dlookup]

/-- Witness for C8: a memoized failure is replayed without any network
request. -/
theorem resolver_memoization_witness :
    (resolveUserCached (fun _ => NetResult.netError) [("ghost", none)]
      "ghost").1 = none
    ∧ (resolveUserCached (fun _ => NetResult.netError) [("ghost", none)]
      "ghost").2.2 = 0 := by
  have h := resolver_memoization (fun _ => NetResult.netError)
    [("ghost", none)] "ghost" none (by decide)
  exact ⟨h.1, h.2.1⟩

/-- Claim C10: creation arms the expiration task with the literal delay
15 seconds, while the confirmation message placed in the chat ends with
the words `expiring in 30 minutes.` — and 15 seconds is not 30
minutes. -/
theorem ttl_fifteen_seconds_text_thirty_minutes (s : VaultState) (t a : Nat)
    (u : User) (r c nm : String) :
    dlookup ((createWhisper s t a u r c).2).expiringTasks
        ((createWhisper s t a u r c).1)
      = some (TaskState.pending WHISPER_TTL_SECONDS)
    ∧ WHISPER_TTL_SECONDS = 15
    ∧ (∃ pre, confirmationText nm r = pre ++ "expiring in 30 minutes.")
    ∧ WHISPER_TTL_SECONDS ≠ 30 * 60 := by
  refine ⟨?_, rfl, ⟨_, rfl⟩, by decide⟩
  simp [createWhisper, armExpireTask, dlookup_dinsert]

/-- Counterexample to claim C2: for the very same unauthorized caller
Eve and the very same id, a non-existent (or expired) id renders the
expired-or-non-existent text while a live id renders the distinct
you-are-neither text, so Eve can tell whether the id exists. -/
theorem unauthorized_text_differs_from_not_found :
    (whisperCallbackHandler ⟨[], []⟩ eveUser "REVEAL" "W").1
      = CbOutcome.errorAnswer notFoundText
    ∧ (whisperCallbackHandler
        ⟨[("W", sampleEntry)], [("W", TaskState.pending 15)]⟩
        eveUser "REVEAL" "W").1
      = CbOutcome.errorAnswer notAuthorizedText
    ∧ notFoundText ≠ notAuthorizedText := by decide

/-- Claim C4 at the failing input: the raw removal step (`whispers.pop`)
raises `KeyError` — success flag `false` — when the record is already
absent, both on a timer firing and inside an explicit expire, instead
of being an idempotent no-op; only the handler-level presence check
makes a second sequential expire answer the expired-or-non-existent
error. -/
theorem expire_removal_step_raises_when_absent :
    (timerFireRun ⟨[], [("W", TaskState.pending 15)]⟩ "W").1 = false
    ∧ (expireWhisperRun ⟨[], []⟩ "W").1 = false
    ∧ (whisperCallbackHandler
         (whisperCallbackHandler
            ⟨[("W", sampleEntry)], [("W", TaskState.pending 15)]⟩
            aliceUser "EXPIRE" "W").2
         aliceUser "EXPIRE" "W").1
      = CbOutcome.errorAnswer notFoundText := by decide

/-- Counterexample to claim C5: after the timer fires, the record is
gone but the task handle is still registered (now marked fired) — the
handle outlives the LIVE record, so it is not invalidated atomically
with deletion. -/
theorem timer_handle_outlives_record :
    (timerFireRun ⟨[("W", sampleEntry)], [("W", TaskState.pending 15)]⟩
      "W").1 = true
    ∧ peek (timerFireRun ⟨[("W", sampleEntry)],
        [("W", TaskState.pending 15)]⟩ "W").2 "W" = none
    ∧ dlookup (timerFireRun ⟨[("W", sampleEntry)],
        [("W", TaskState.pending 15)]⟩ "W").2.expiringTasks "W"
      = some TaskState.fired := by decide

/-- Claim C7 at the failing input: two distinct creation operations —
different sender, recipient and content — that happen in the same
wall-clock second and whose content strings occupy the same reused
object address receive the identical whisper id. -/
theorem whisper_id_collision :
    (createWhisper ⟨[], []⟩ 1700000000 94321 aliceUser "bob" "hello").1
      = (createWhisper ⟨[], []⟩ 1700000000 94321 eveUser "carol"
          "different").1
    ∧ ("hello" : String) ≠ "different" := by decide

/-- Counterexample to claim C3: after a successful explicit expire the
id is absent (`peek` is `none`), yet a later creation that collides on
`(second, address)` re-inserts the very same id — the id re-enters
LIVE and a subsequent reveal on it succeeds. -/
theorem expired_id_reenters_live :
    peek (runOps ⟨[], []⟩
        [VaultOp.create 1 2 aliceUser "bob" "hi",
         VaultOp.callback aliceUser "EXPIRE" (makeWhisperId 1 2)])
      (makeWhisperId 1 2) = none
    ∧ peek (runOps ⟨[], []⟩
        [VaultOp.create 1 2 aliceUser "bob" "hi",
         VaultOp.callback aliceUser "EXPIRE" (makeWhisperId 1 2),
         VaultOp.create 1 2 aliceUser "bob" "second"])
      (makeWhisperId 1 2) = some ⟨aliceUser, "bob", "second"⟩
    ∧ (whisperCallbackHandler (runOps ⟨[], []⟩
        [VaultOp.create 1 2 aliceUser "bob" "hi",
         VaultOp.callback aliceUser "EXPIRE" (makeWhisperId 1 2),
         VaultOp.create 1 2 aliceUser "bob" "second"])
        bobUser "REVEAL" (makeWhisperId 1 2)).1
      = CbOutcome.alertAnswer (revealText ⟨aliceUser, "bob", "second"⟩) := by
  decide

/-- Claim C2 amended: an absent id — whether it never existed or has
expired, the handler sees the same `None` — always renders the
expired-or-non-existent error, and any two absent-id requests render
identically; but a live id with an unauthorized requester renders the
distinct you-are-neither text. -/
theorem absent_and_unauthorized_rendering (s s2 : VaultState) (u u2 : User)
    (a a2 wid wid2 : String)
    (h1 : dlookup s.whispers wid = none)
    (h2 : dlookup s2.whispers wid2 = none) :
    (whisperCallbackHandler s u a wid).1 = CbOutcome.errorAnswer notFoundText
    ∧ (whisperCallbackHandler s2 u2 a2 wid2).1
        = (whisperCallbackHandler s u a wid).1
    ∧ (∀ s3 u3 a3 wid3 w, dlookup s3.whispers wid3 = some w →
        u3.username ≠ some w.recipient → u3 ≠ w.sender →
        (whisperCallbackHandler s3 u3 a3 wid3).1
          = CbOutcome.errorAnswer notAuthorizedText)
    ∧ notFoundText ≠ notAuthorizedText := by
  refine ⟨?_, ?_, ?_, by decide⟩
  · rw [whisperCallbackHandler_absent s u a wid h1]
  · rw [whisperCallbackHandler_absent s u a wid h1,
        whisperCallbackHandler_absent s2 u2 a2 wid2 h2]
  · intro s3 u3 a3 wid3 w hw hu hs
    simp [whisperCallbackHandler, hw, hu, hs]

/-- Witness for the amended C2. -/
theorem absent_and_unauthorized_rendering_witness :
    (whisperCallbackHandler ⟨[], []⟩ eveUser "REVEAL" "W").1
      = CbOutcome.errorAnswer notFoundText
    ∧ notFoundText ≠ notAuthorizedText := by
  have h := absent_and_unauthorized_rendering ⟨[], []⟩ ⟨[], []⟩ eveUser eveUser
    "REVEAL" "REVEAL" "W" "W" rfl rfl
  exact ⟨h.1, h.2.2.2⟩

/-- One step cannot resurrect an absent id unless it is a creation that
collides on that very id. -/
theorem step_preserves_absent (s : VaultState) (wid : String) (op : VaultOp)
    (h : dlookup s.whispers wid = none)
    (hop : ∀ t a u r c, op = VaultOp.create t a u r c →
      makeWhisperId t a ≠ wid) :
    dlookup (stepState s op).whispers wid = none := by
  cases op with
  | create t a u r c =>
    have hne : makeWhisperId t a ≠ wid := hop t a u r c rfl
    simp [stepState, createWhisper, dlookup_dinsert, hne, h]
  | callback u action wid2 =>
    cases hl : dlookup s.whispers wid2 with
    | none => simpa [stepState, whisperCallbackHandler, hl] using h
    | some w =>
      by_cases hd : u.username ≠ some w.recipient ∧ u ≠ w.sender
      · simpa [stepState, whisperCallbackHandler, hl, hd] using h
      · by_cases ha : action = "REVEAL"
        · simpa [stepState, whisperCallbackHandler, hl, hd, ha] using h
        · by_cases he : action = "EXPIRE"
          · simp only [stepState, whisperCallbackHandler, hl, hd, ha, he,
              expireWhisperRun, dpopStrict, if_neg hd, if_neg ha, if_pos he]
            by_cases hww : wid = wid2
            · simp [hww, dlookup_dremove_self]
            · simp [dlookup_dremove_ne _ _ _ hww, h]
          · simpa [stepState, whisperCallbackHandler, hl, hd, ha, he] using h
  | deepLinkSave u wid2 => simpa [stepState] using h
  | fire wid2 =>
    cases hl : dlookup s.whispers wid2 with
    | none => simpa [stepState, timerFireRun, dpopStrict, hl] using h
    | some w =>
      simp only [stepState, timerFireRun, dpopStrict, hl]
      by_cases hww : wid = wid2
      · simp [hww, dlookup_dremove_self]
      · simp [dlookup_dremove_ne _ _ _ hww, h]

/-- A whole trace cannot resurrect an absent id unless it contains a
creation colliding on that id. -/
theorem runOps_preserves_absent (ops : List VaultOp) (s : VaultState)
    (wid : String) (h : dlookup s.whispers wid = none)
    (hops : ∀ op ∈ ops, ∀ t a u r c, op = VaultOp.create t a u r c →
      makeWhisperId t a ≠ wid) :
    dlookup (runOps s ops).whispers wid = none := by
  induction ops generalizing s with
  | nil => simpa [runOps] using h
  | cons op rest ih =>
    simp only [runOps]
    exact ih (stepState s op)
      (step_preserves_absent s wid op h (hops op (List.mem_cons_self op rest)))
      (fun op2 hmem => hops op2 (List.mem_cons_of_mem op hmem))

/-- Claim C3 amended: once an id is absent (after any successful expire,
explicit or timer-fired), every later reveal, peek or expire on it
returns the expired-or-non-existent outcome, for any interleaving of
later events — provided no later creation reuses the id (the flawed
time-plus-address id scheme can collide and re-insert it). -/
theorem one_shot_deletion (s : VaultState) (wid : String) (ops : List VaultOp)
    (habs : dlookup s.whispers wid = none)
    (hfresh : ∀ op ∈ ops, ∀ t a u r c, op = VaultOp.create t a u r c →
      makeWhisperId t a ≠ wid) :
    peek (runOps s ops) wid = none
    ∧ (∀ u action, (whisperCallbackHandler (runOps s ops) u action wid).1
        = CbOutcome.errorAnswer notFoundText)
    ∧ (∀ u, startSaveHandler (runOps s ops) u wid = notFoundText) := by
  have habs2 := runOps_preserves_absent ops s wid habs hfresh
  refine ⟨habs2, ?_, ?_⟩
  · intro u action
    rw [whisperCallbackHandler_absent _ u action wid habs2]
  · intro u
    simp [startSaveHandler, habs2]

/-- Witness for the amended C3: an expired id stays dead through a
reveal attempt, a stray timer fire and a save attempt. -/
theorem one_shot_deletion_witness :
    peek (runOps ⟨[], [("W", TaskState.fired)]⟩
        [VaultOp.callback eveUser "REVEAL" "W", VaultOp.fire "W",
         VaultOp.deepLinkSave bobUser "W"]) "W" = none
    ∧ (whisperCallbackHandler (runOps ⟨[], [("W", TaskState.fired)]⟩
        [VaultOp.callback eveUser "REVEAL" "W", VaultOp.fire "W",
         VaultOp.deepLinkSave bobUser "W"]) bobUser "EXPIRE" "W").1
      = CbOutcome.errorAnswer notFoundText := by
  have h := one_shot_deletion ⟨[], [("W", TaskState.fired)]⟩ "W"
    [VaultOp.callback eveUser "REVEAL" "W", VaultOp.fire "W",
     VaultOp.deepLinkSave bobUser "W"] rfl
    (by
      intro op hmem t a u r c heq
      subst heq
      simp at hmem)
  exact ⟨h.1, h.2.1 bobUser "EXPIRE"⟩

/-! ## Key-uniqueness machinery for the task dictionary -/

/-- The keys of a dictionary. -/
def keysOf {α : Type} (m : List (String × α)) : List String := m.map Prod.fst

/-- Well-formedness of an embedded Python dict: one binding per key. -/
def NodupKeys {α : Type} (m : List (String × α)) : Prop := (keysOf m).Nodup

theorem dremove_sublist {α : Type} (m : List (String × α)) (k : String) :
    List.Sublist (dremove m k) m := by
  induction m with
  | nil => simp [dremove]
  | cons p rest ih =>
    obtain ⟨k1, v1⟩ := p
    by_cases h1 : k1 = k
    · rw [show dremove ((k1, v1) :: rest) k = dremove rest k by
            simp [dremove, h1]]
      exact ih.cons _
    · rw [show dremove ((k1, v1) :: rest) k = (k1, v1) :: dremove rest k by
            simp [dremove, h1]]
      exact ih.cons₂ _

theorem nodupKeys_dremove {α : Type} (m : List (String × α)) (k : String)
    (h : NodupKeys m) : NodupKeys (dremove m k) :=
  List.Nodup.sublist (List.Sublist.map Prod.fst (dremove_sublist m k)) h

theorem not_mem_keys_dremove {α : Type} (m : List (String × α)) (k : String) :
    k ∉ keysOf (dremove m k) := by
  induction m with
  | nil => simp [dremove, keysOf]
  | cons p rest ih =>
    obtain ⟨k1, v1⟩ := p
    by_cases h1 : k1 = k
    · rw [show dremove ((k1, v1) :: rest) k = dremove rest k by
            simp [dremove, h1]]
      exact ih
    · rw [show dremove ((k1, v1) :: rest) k = (k1, v1) :: dremove rest k by
            simp [dremove, h1]]
      simp only [keysOf, List.map_cons, List.mem_cons]
      push_neg
      exact ⟨fun hh => h1 hh.symm, ih⟩

theorem nodupKeys_dinsert {α : Type} (m : List (String × α)) (k : String)
    (v : α) (h : NodupKeys m) : NodupKeys (dinsert m k v) := by
  have hkeys : keysOf (dinsert m k v) = k :: keysOf (dremove m k) := rfl
  rw [NodupKeys, hkeys]
  exact List.nodup_cons.mpr ⟨not_mem_keys_dremove m k, nodupKeys_dremove m k h⟩

theorem keysOf_markFired (m : List (String × TaskState)) (k : String) :
    keysOf (markFired m k) = keysOf m := by
  induction m with
  | nil => rfl
  | cons p rest ih =>
    obtain ⟨k1, v1⟩ := p
    by_cases h1 : k1 = k <;> simp [markFired, keysOf, h1] <;>
      simpa [keysOf] using ih

theorem dlookup_markFired_self (m : List (String × TaskState)) (k : String)
    (v : TaskState) (h : dlookup m k = some v) :
    dlookup (markFired m k) k = some TaskState.fired := by
  induction m with
  | nil => simp [dlookup] at h
  | cons p rest ih =>
    obtain ⟨k1, v1⟩ := p
    by_cases h1 : k1 = k
    · simp [markFired, dlookup, h1]
    · simp only [markFired, if_neg h1, dlookup] at h ⊢
      exact ih h

/-- Every step keeps the task dictionary well-formed. -/
theorem nodupKeys_step (s : VaultState) (op : VaultOp)
    (h : NodupKeys s.expiringTasks) :
    NodupKeys ((stepState s op).expiringTasks) := by
  cases op with
  | create t a u r c =>
    simpa [stepState, createWhisper, armExpireTask] using
      nodupKeys_dinsert s.expiringTasks _ _ h
  | callback u action wid =>
    cases hl : dlookup s.whispers wid with
    | none => simpa [stepState, whisperCallbackHandler, hl] using h
    | some w =>
      by_cases hd : u.username ≠ some w.recipient ∧ u ≠ w.sender
      · simpa [stepState, whisperCallbackHandler, hl, hd] using h
      · by_cases ha : action = "REVEAL"
        · simpa [stepState, whisperCallbackHandler, hl, hd, ha] using h
        · by_cases he : action = "EXPIRE"
          · simp only [stepState, whisperCallbackHandler, hl, hd, ha, he,
              expireWhisperRun, dpopStrict, if_neg hd, if_neg ha, if_pos he]
            exact nodupKeys_dremove _ _ h
          · simpa [stepState, whisperCallbackHandler, hl, hd, ha, he] using h
  | deepLinkSave u wid => simpa [stepState] using h
  | fire wid =>
    have hm : NodupKeys (markFired s.expiringTasks wid) := by
      rw [NodupKeys, keysOf_markFired]; exact h
    cases hl : dlookup s.whispers wid with
    | none => simpa [stepState, timerFireRun, dpopStrict, hl] using h
    | some w => simpa [stepState, timerFireRun, dpopStrict, hl] using hm

/-- Claim C5 amended: the task dictionary keeps at most one entry per
id across every step; arming at creation first removes any prior entry
for the id and binds exactly one pending task with the fixed delay; a
successful explicit expire removes the handle together with the record;
but a timer firing removes the record while leaving its own handle in
the dictionary (marked fired) — the handle is not invalidated
atomically with a timer-fired deletion. -/
theorem timer_handle_invariants (s : VaultState)
    (h : NodupKeys s.expiringTasks) :
    (∀ op, NodupKeys ((stepState s op).expiringTasks))
    ∧ (∀ t a u r c,
        dlookup ((createWhisper s t a u r c).2).expiringTasks
            (makeWhisperId t a)
          = some (TaskState.pending WHISPER_TTL_SECONDS))
    ∧ (∀ wid s2, expireWhisperRun s wid = (true, s2) →
        dlookup s2.whispers wid = none ∧ dlookup s2.expiringTasks wid = none)
    ∧ (∀ wid d s2, dlookup s.expiringTasks wid = some (TaskState.pending d) →
        timerFireRun s wid = (true, s2) →
        dlookup s2.whispers wid = none
        ∧ dlookup s2.expiringTasks wid = some TaskState.fired) := by
  refine ⟨fun op => nodupKeys_step s op h, ?_, ?_, ?_⟩
  · intro t a u r c
    simp [createWhisper, armExpireTask, dlookup_dinsert]
  · intro wid s2 hrun
    cases hl : dlookup s.whispers wid with
    | none => simp [expireWhisperRun, dpopStrict, hl] at hrun
    | some w =>
      simp only [expireWhisperRun, dpopStrict, hl] at hrun
      obtain ⟨-, rfl⟩ := Prod.mk.injEq .. ▸ hrun
      exact ⟨dlookup_dremove_self _ _, dlookup_dremove_self _ _⟩
  · intro wid d s2 htask hrun
    cases hl : dlookup s.whispers wid with
    | none => simp [timerFireRun, dpopStrict, hl] at hrun
    | some w =>
      simp only [timerFireRun, dpopStrict, hl] at hrun
      obtain ⟨-, rfl⟩ := Prod.mk.injEq .. ▸ hrun
      exact ⟨dlookup_dremove_self _ _,
        dlookup_markFired_self _ _ _ htask⟩

/-- Witness for the amended C5. -/
theorem timer_handle_invariants_witness :
    dlookup ((createWhisper ⟨[], []⟩ 1 2 aliceUser "bob" "hi").2).expiringTasks
        (makeWhisperId 1 2) = some (TaskState.pending WHISPER_TTL_SECONDS) := by
  have h := timer_handle_invariants ⟨[], []⟩ (by simp [NodupKeys, keysOf])
  exact h.2.1 1 2 aliceUser "bob" "hi"

end LowVoiceBot
